import Mathlib

/-!
Verification of the bank-statement reconciliation logic of the pdf-extractor
repository. The embedding translates the pure, deterministic part of the
request pipeline: the transaction-amount normalization, the net-change fold,
the reconciliation verdict, the currency default, and the error-classifying
response branches of the POST handlers. Monetary values are modelled as exact
rationals; the IEEE special values NaN and the infinities, which the source
can receive from the JSON oracle, are modelled by a dedicated extended number
type for the claims that concern them.
-/

/-- Account holder of a statement, from the BankStatement record of
src/types/index.ts. -/
structure AccountHolder where
  name : String
  address : String
deriving DecidableEq, Repr

/-- A single statement transaction, from the Transaction record of
src/types/index.ts. The source annotates the type field as the union
"debit" or "credit", but the reconciler itself branches on the string at
run time and tolerates any tag, so the embedding keeps it a String. -/
structure Transaction where
  date : String
  description : String
  amount : ℚ
  type : String
  balance : Option ℚ
deriving DecidableEq, Repr

/-- Reconciliation verdict, from the reconciliation field of the
BankStatement record of src/types/index.ts. The discrepancy field is
optional there, modelled with Option. -/
structure Reconciliation where
  calculatedBalance : ℚ
  isReconciled : Bool
  discrepancy : Option ℚ
deriving DecidableEq, Repr

/-- The full statement record, from the BankStatement record of
src/types/index.ts. The currency field is declared a plain string there,
but the value parsed from the oracle output can lack it, which the source
detects with a JavaScript falsiness test; the embedding models an absent
currency as none and an empty one as some "". -/
structure BankStatement where
  accountHolder : AccountHolder
  documentDate : Option String
  currency : Option String
  startingBalance : ℚ
  endingBalance : ℚ
  transactions : List Transaction
  reconciliation : Reconciliation
deriving DecidableEq, Repr

/-- JavaScript falsiness of the currency value: true for an absent field
(undefined) and for the empty string, the only falsy strings. Mirrors the
test in the line "if (!results.currency)" of processWithAI. -/
def currencyIsFalsy : Option String → Bool
  | none => true
  | some s => s == ""

/-- The currency default of processWithAI (route.ts lines 186 to 189):
when the parsed currency is falsy it is set to "USD", otherwise the record
is untouched. -/
def applyCurrencyDefault (results : BankStatement) : BankStatement :=
  if currencyIsFalsy results.currency then { results with currency := some "USD" }
  else results

/-- Per-transaction normalization of processWithAI (route.ts lines 192 to
200): the amount is replaced by its absolute value, every other field is
spread through unchanged. -/
def normalizeTransaction (transaction : Transaction) : Transaction :=
  { transaction with amount := |transaction.amount| }

/-- The normalization map of processWithAI: normalizedTransactions is the
map of the per-transaction normalization over the parsed list. -/
def normalizeTransactions (transactions : List Transaction) : List Transaction :=
  transactions.map normalizeTransaction

/-- One step of the net-change reduce of processWithAI (route.ts lines 203
to 214): a credit adds its amount to the accumulator, a debit subtracts
it, any other tag leaves the accumulator as it is. -/
def netChangeStep (sum : ℚ) (transaction : Transaction) : ℚ :=
  if transaction.type = "credit" then sum + transaction.amount
  else if transaction.type = "debit" then sum - transaction.amount
  else sum

/-- The net change of a transaction list: the reduce of processWithAI with
initial accumulator 0. -/
def netChange (transactions : List Transaction) : ℚ :=
  transactions.foldl netChangeStep 0

/-- The reconciliation computation of processWithAI (route.ts lines 216 to
231): calculated balance, discrepancy, tolerance test against 0.01, and
the verdict record in which the discrepancy field is dropped when the
statement reconciles. -/
def reconcile (startingBalance : ℚ) (transactions : List Transaction)
    (endingBalance : ℚ) : Reconciliation :=
  let calculatedEndingBalance := startingBalance + netChange transactions
  let discrepancy := endingBalance - calculatedEndingBalance
  let isReconciled := decide (|discrepancy| < (0.01 : ℚ))
  { calculatedBalance := calculatedEndingBalance
    isReconciled := isReconciled
    discrepancy := if isReconciled then none else some discrepancy }

/-- The record transformation performed by processWithAI after the oracle
output is parsed (route.ts lines 186 to 233): currency default, amount
normalization, and replacement of the transactions and reconciliation
fields by the recomputed values. -/
def processStatement (results : BankStatement) : BankStatement :=
  let results := applyCurrencyDefault results
  let normalizedTransactions := normalizeTransactions results.transactions
  { results with
    transactions := normalizedTransactions
    reconciliation :=
      reconcile results.startingBalance normalizedTransactions results.endingBalance }

/-- An HTTP response of the analyze endpoint: either a JSON error body with
a status code, or the successful statement payload (status 200). -/
inductive Response where
  | er (status : Nat) (message : String)
  | ok (statement : BankStatement)
deriving DecidableEq, Repr

/-- Status code of a response; NextResponse.json defaults to 200 on the
success path. -/
def Response.status : Response → Nat
  | .er s _ => s
  | .ok _ => 200

/-- Outcome of the processWithAI call as seen by the POST handler: either
it threw an Error carrying a message (no text response from the AI, no
JSON object found in it, JSON.parse failure, rethrown API error), or it
returned a parsed statement record. -/
inductive AIOutcome where
  | thrown (msg : String)
  | parsed (results : BankStatement)
deriving Repr

/-- The message thrown by processWithAI when no JSON object can be
extracted from the oracle text (route.ts line 180). -/
def failedJSONMessage : String := "Failed to extract JSON from AI response"

/-- The generic body of the catch-all 500 response of both POST variants
(route.ts lines 100 to 103, the v2 handler lines 77 to 80). -/
def genericErrorMessage : String := "An error occurred while analyzing the file"

/-- The body of the 400 response of route.ts when the extracted PDF text is
empty or whitespace (route.ts lines 85 to 90). -/
def noTextMessage : String := "No text content could be extracted from PDF"

/-- Trimming of surrounding whitespace, embedding the trim call of the
text-content check of route.ts line 85: drop whitespace characters from
the front, then from the back (through a reversal), of the character
list of the string. -/
def jsTrim (s : String) : String :=
  String.mk (((s.data.dropWhile Char.isWhitespace).reverse.dropWhile
    Char.isWhitespace).reverse)

/-- The POST handler of route.ts from the point where the PDF text has been
extracted (route.ts lines 84 to 104): an empty or whitespace-only text is
rejected with a 400 response, then processWithAI runs; a successful record
is returned with status 200, and any exception reaches the single catch
clause which always answers 500 with the fixed generic message. The guard
embeds the JavaScript condition of line 85, a falsiness test on the string
disjoined with a test that the trimmed length is zero. -/
def routePOST (textContent : String) (ai : AIOutcome) : Response :=
  if (textContent == "") || ((jsTrim textContent).length == 0) then
    .er 400 noTextMessage
  else
    match ai with
    | .thrown _ => .er 500 genericErrorMessage
    | .parsed results => .ok (processStatement results)

/-- Whether the character list given first occurs at the head of the one
given second, the auxiliary scan of the substring test below. -/
def listStartsWith : List Char → List Char → Bool
  | [], _ => true
  | _ :: _, [] => false
  | p :: ps, c :: cs => p == c && listStartsWith ps cs

/-- Whether the character list given first occurs contiguously anywhere in
the one given second. -/
def listHasSubstr (pat : List Char) : List Char → Bool
  | [] => pat.isEmpty
  | c :: cs => listStartsWith pat (c :: cs) || listHasSubstr pat cs

/-- JavaScript String.prototype.includes, used by the catch clause of the
v2 POST handler (line 69): whether the pattern occurs as a contiguous
substring. -/
def jsIncludes (s pat : String) : Bool :=
  listHasSubstr pat.data s.data

/-- The phrase the v2 catch clause looks for to recognize the oracle error
payload that classifies the document as not a bank statement. -/
def appearsToBe : String := "appears to be"

/-- The catch clause of the v2 POST handler (the direct-PDF variant, lines
64 to 81), as a function of the caught error message: a message that
includes the phrase "appears to be" is answered 400 with that message,
every other error is answered 500 with the fixed generic message. -/
def handleCaughtError (msg : String) : Response :=
  if jsIncludes msg appearsToBe then .er 400 msg
  else .er 500 genericErrorMessage

/-- Extended number type covering the IEEE special values the JSON parsed
from the oracle can contain in an amount field: NaN, the two infinities,
and finite values (kept exact as rationals). -/
inductive JSNum where
  | nan
  | posInf
  | negInf
  | fin (q : ℚ)
deriving DecidableEq, Repr

/-- Math.abs on the extended numbers: NaN maps to NaN, both infinities map
to positive infinity, a finite value maps to its absolute value. -/
def jsAbs : JSNum → JSNum
  | .nan => .nan
  | .posInf => .posInf
  | .negInf => .posInf
  | .fin q => .fin |q|

/-- A transaction whose numeric fields carry the extended numbers, for the
claims about malformed numeric input reaching the normalizer. -/
structure TransactionJS where
  date : String
  description : String
  amount : JSNum
  type : String
  balance : Option JSNum
deriving DecidableEq, Repr

/-- The per-transaction normalization of processWithAI on the extended
numbers: Math.abs of the amount, other fields spread through. -/
def normalizeTransactionJS (transaction : TransactionJS) : TransactionJS :=
  { transaction with amount := jsAbs transaction.amount }

/-- The normalization map of processWithAI on the extended numbers. -/
def normalizeJS (transactions : List TransactionJS) : List TransactionJS :=
  transactions.map normalizeTransactionJS

/-- Modelled from the claim wording, for the refinement comparison with the
net-change fold of the source: the per-transaction contribution, positive
for a credit, negative for a debit, zero for any other tag. -/
def specContribution (t : Transaction) : ℚ :=
  if t.type = "credit" then t.amount
  else if t.type = "debit" then -t.amount
  else 0

/-- Sample account holder for the concrete instantiations. -/
def sampleHolder : AccountHolder := ⟨"Jane Roe", "1 Main Street"⟩

/-- Sample reconciliation verdict for the concrete instantiations, standing
for whatever the oracle reported. -/
def sampleVerdict : Reconciliation := ⟨0, true, none⟩

/-- Sample debit transaction carrying a negative amount, as the oracle may
return despite the prompt convention. -/
def txNeg : Transaction := ⟨"01 Jan 2024", "ATM withdrawal", -5, "debit", none⟩

/-- Sample credit transaction carrying a nonnegative amount. -/
def txPos : Transaction := ⟨"02 Jan 2024", "Deposit", 7, "credit", some 107⟩

/-- Sample statement whose currency field is the empty string. -/
def rEmptyCurrency : BankStatement :=
  ⟨sampleHolder, none, some "", 0, 0, [], sampleVerdict⟩

/-- Sample statement whose currency is EUR. -/
def rEur : BankStatement :=
  ⟨sampleHolder, none, some "EUR", 0, 0, [], sampleVerdict⟩

/-- Sample statement whose currency field is absent. -/
def rNoCurrency : BankStatement :=
  ⟨sampleHolder, none, none, 1000, 1000, [], sampleVerdict⟩

/-- Sample extended-number transaction whose amount is NaN. -/
def txNan : TransactionJS := ⟨"03 Jan 2024", "Service fee", .nan, "debit", none⟩

/-- Sample extended-number transaction whose amount is negative infinity. -/
def txNegInf : TransactionJS :=
  ⟨"04 Jan 2024", "Service fee", .negInf, "debit", none⟩

/-- A document-type error message of the shape the oracle is instructed to
produce for a document that is not a bank statement. -/
def docTypeMessage : String :=
  "This appears to be a resume rather than a bank statement. Please upload a bank statement PDF."

lemma foldl_netChangeStep (ts : List Transaction) (a : ℚ) :
    ts.foldl netChangeStep a = a + (ts.map specContribution).sum := by
  induction ts generalizing a with
  | nil => simp
  | cons t rest ih =>
    rw [List.foldl_cons, ih, List.map_cons, List.sum_cons]
    unfold netChangeStep specContribution
    by_cases h1 : t.type = "credit"
    · rw [if_pos h1, if_pos h1]; ring
    · rw [if_neg h1, if_neg h1]
      by_cases h2 : t.type = "debit"
      · rw [if_pos h2, if_pos h2]; ring
      · rw [if_neg h2, if_neg h2]; ring

/-- Claim C1: for every starting balance, ending balance and normalized
transaction sequence, the net change is the fold in which a credit adds
its amount, a debit subtracts its amount, and any other type tag
contributes zero (silently ignored, not rejected), and the calculated
balance equals the starting balance plus this net change. -/
theorem C1_netChange_fold (startingBalance endingBalance : ℚ)
    (transactions : List Transaction) :
    netChange transactions = (transactions.map specContribution).sum ∧
    (reconcile startingBalance transactions endingBalance).calculatedBalance
      = startingBalance + netChange transactions := by
  refine ⟨?_, rfl⟩
  simpa using foldl_netChangeStep transactions 0

/-- Claim C2: the reconciler sets the discrepancy to the ending balance
minus the calculated balance and reconciles exactly when its absolute
value is below the fixed absolute tolerance 0.01; at the boundary,
reconcile 1000 [] 1000.009 reconciles, while reconcile 1000 [] 1000.011
does not and reports discrepancy 0.011. -/
theorem C2_reconcile_tolerance (startingBalance endingBalance : ℚ)
    (transactions : List Transaction) :
    ((reconcile startingBalance transactions endingBalance).isReconciled
        = decide (|endingBalance -
            (reconcile startingBalance transactions endingBalance).calculatedBalance|
          < 0.01)) ∧
    (reconcile 1000 [] 1000.009).isReconciled = true ∧
    (reconcile 1000 [] 1000.011).isReconciled = false ∧
    (reconcile 1000 [] 1000.011).discrepancy = some 0.011 := by
  have h9 : decide (|(1000.009 : ℚ) - (1000 + 0)| < 0.01) = true := by
    rw [decide_eq_true_eq, abs_lt]
    constructor <;> norm_num
  have h11 : decide (|(1000.011 : ℚ) - (1000 + 0)| < 0.01) = false := by
    rw [decide_eq_false_iff_not, abs_lt]
    push_neg
    intro h
    norm_num
  refine ⟨rfl, h9, h11, ?_⟩
  show (if decide (|(1000.011 : ℚ) - (1000 + 0)| < 0.01) = true then (none : Option ℚ)
      else some ((1000.011 : ℚ) - (1000 + 0))) = some 0.011
  rw [h11]
  norm_num

/-- Claim C3: in every verdict the reconciler produces, the discrepancy
field is omitted exactly when the statement reconciles, and otherwise
holds the ending balance minus the calculated balance. -/
theorem C3_discrepancy_presence (startingBalance endingBalance : ℚ)
    (transactions : List Transaction) :
    (reconcile startingBalance transactions endingBalance).discrepancy
      = if (reconcile startingBalance transactions endingBalance).isReconciled
        then none
        else some (endingBalance -
          (reconcile startingBalance transactions endingBalance).calculatedBalance) :=
  rfl

/-- Claim C4: normalization returns a sequence of the same length and
order in which each transaction carries the absolute value of its amount
and every other field unchanged; in particular a transaction whose amount
is minus x, for nonnegative x, comes out with amount x and the other
fields preserved. -/
theorem C4_normalize_pointwise (transactions : List Transaction) :
    (normalizeTransactions transactions).length = transactions.length ∧
    (∀ (i : Nat) (t : Transaction), transactions.get? i = some t →
      (normalizeTransactions transactions).get? i
        = some { date := t.date, description := t.description,
                 amount := |t.amount|, type := t.type, balance := t.balance }) ∧
    (∀ (x : ℚ) (t : Transaction), 0 ≤ x → t.amount = -x →
      normalizeTransaction t = { t with amount := x }) := by
  refine ⟨List.length_map _ _, ?_, ?_⟩
  · intro i t h
    unfold normalizeTransactions
    rw [List.get?_map, h]
    rfl
  · intro x t hx ht
    unfold normalizeTransaction
    rw [ht, abs_neg, abs_of_nonneg hx]

/-- Witness for C4: the pointwise description applied to a singleton list
around a debit of amount minus five. -/
theorem C4_witness :
    ([txNeg].get? 0 = some txNeg ∧
      (normalizeTransactions [txNeg]).get? 0
        = some { date := txNeg.date, description := txNeg.description,
                 amount := |txNeg.amount|, type := txNeg.type,
                 balance := txNeg.balance }) ∧
    (0 ≤ (5 : ℚ) ∧ txNeg.amount = -5 ∧
      normalizeTransaction txNeg = { txNeg with amount := 5 }) :=
  ⟨⟨rfl, (C4_normalize_pointwise [txNeg]).2.1 0 txNeg rfl⟩,
   ⟨by decide, rfl, (C4_normalize_pointwise [txNeg]).2.2 5 txNeg (by decide) rfl⟩⟩

lemma normalizeTransactions_fixes :
    ∀ transactions : List Transaction,
      (∀ t ∈ transactions, 0 ≤ t.amount) →
      normalizeTransactions transactions = transactions := by
  intro ts
  induction ts with
  | nil => intro _; rfl
  | cons t rest ih =>
    intro h
    have ht : normalizeTransaction t = t := by
      unfold normalizeTransaction
      rw [abs_of_nonneg (h t (List.mem_cons_self t rest))]
    have hrest := ih fun x hx => h x (List.mem_cons_of_mem t hx)
    calc normalizeTransactions (t :: rest)
        = normalizeTransaction t :: normalizeTransactions rest := rfl
      _ = t :: rest := by rw [ht, hrest]

lemma normalizeTransactions_comp (ts : List Transaction) :
    normalizeTransactions (normalizeTransactions ts) = normalizeTransactions ts := by
  induction ts with
  | nil => rfl
  | cons t rest ih =>
    have ht : normalizeTransaction (normalizeTransaction t) = normalizeTransaction t := by
      unfold normalizeTransaction
      simp [abs_abs]
    calc normalizeTransactions (normalizeTransactions (t :: rest))
        = normalizeTransaction (normalizeTransaction t)
            :: normalizeTransactions (normalizeTransactions rest) := rfl
      _ = normalizeTransaction t :: normalizeTransactions rest := by rw [ht, ih]

/-- Claim C5: normalization is idempotent: it fixes every sequence whose
amounts are already nonnegative, and composing it with itself gives the
same result as one application, on every input sequence. -/
theorem C5_normalize_idempotent (transactions : List Transaction) :
    ((∀ t ∈ transactions, 0 ≤ t.amount) →
        normalizeTransactions transactions = transactions) ∧
    normalizeTransactions (normalizeTransactions transactions)
      = normalizeTransactions transactions :=
  ⟨normalizeTransactions_fixes transactions, normalizeTransactions_comp transactions⟩

/-- Witness for C5: an already-normalized singleton list is fixed. -/
theorem C5_witness : normalizeTransactions [txPos] = [txPos] :=
  (C5_normalize_idempotent [txPos]).1 (by decide)

/-- Claim C6: the currency default sets the currency to USD when it is
absent or the empty string, leaves a record with any non-empty currency
entirely unchanged, and never touches the other fields. -/
theorem C6_currency_default (record : BankStatement) :
    ((record.currency = none ∨ record.currency = some "") →
        (applyCurrencyDefault record).currency = some "USD") ∧
    (∀ c, record.currency = some c → c ≠ "" →
        applyCurrencyDefault record = record) ∧
    ((applyCurrencyDefault record).accountHolder = record.accountHolder ∧
      (applyCurrencyDefault record).documentDate = record.documentDate ∧
      (applyCurrencyDefault record).startingBalance = record.startingBalance ∧
      (applyCurrencyDefault record).endingBalance = record.endingBalance ∧
      (applyCurrencyDefault record).transactions = record.transactions ∧
      (applyCurrencyDefault record).reconciliation = record.reconciliation) := by
  refine ⟨?_, ?_, ?_⟩
  · intro h
    have hf : currencyIsFalsy record.currency = true := by
      rcases h with h | h <;> rw [h] <;> rfl
    unfold applyCurrencyDefault
    rw [if_pos hf]
  · intro c hc hne
    have hf : currencyIsFalsy record.currency = false := by
      rw [hc]
      show (c == "") = false
      exact beq_eq_false_iff_ne.mpr hne
    unfold applyCurrencyDefault
    rw [if_neg (by simp [hf])]
  · by_cases hf : currencyIsFalsy record.currency = true
    · unfold applyCurrencyDefault
      rw [if_pos hf]
      exact ⟨rfl, rfl, rfl, rfl, rfl, rfl⟩
    · unfold applyCurrencyDefault
      rw [if_neg hf]
      exact ⟨rfl, rfl, rfl, rfl, rfl, rfl⟩

/-- Witness for C6: an empty currency becomes USD, a EUR record is left
unchanged. -/
theorem C6_witness :
    ((rEmptyCurrency.currency = none ∨ rEmptyCurrency.currency = some "") ∧
      (applyCurrencyDefault rEmptyCurrency).currency = some "USD") ∧
    (rEur.currency = some "EUR" ∧ "EUR" ≠ "" ∧
      applyCurrencyDefault rEur = rEur) :=
  ⟨⟨Or.inr rfl, (C6_currency_default rEmptyCurrency).1 (Or.inr rfl)⟩,
   ⟨rfl, by decide, (C6_currency_default rEur).2.1 "EUR" rfl (by decide)⟩⟩

/-- Claim C7: the v2 catch clause answers 400 with the caught message
itself when that message includes the phrase "appears to be", and
otherwise answers 500 with the fixed generic message, which does not carry
the internal error text. -/
theorem C7_catch_classification (msg : String) :
    (jsIncludes msg appearsToBe = true →
        handleCaughtError msg = Response.er 400 msg) ∧
    (jsIncludes msg appearsToBe = false →
        handleCaughtError msg = Response.er 500 genericErrorMessage) := by
  constructor
  · intro h
    unfold handleCaughtError
    rw [if_pos h]
  · intro h
    unfold handleCaughtError
    rw [if_neg (by simp [h])]

/-- Witness for C7: a document-type message is answered 400 with itself,
the JSON-extraction failure message is answered 500 with the generic
body. -/
theorem C7_witness :
    (jsIncludes docTypeMessage appearsToBe = true ∧
      handleCaughtError docTypeMessage = Response.er 400 docTypeMessage) ∧
    (jsIncludes failedJSONMessage appearsToBe = false ∧
      handleCaughtError failedJSONMessage
        = Response.er 500 genericErrorMessage) :=
  ⟨⟨by decide, (C7_catch_classification docTypeMessage).1 (by decide)⟩,
   ⟨by decide, (C7_catch_classification failedJSONMessage).2 (by decide)⟩⟩

/-- Counterexample to claim C8 as stated: on empty extracted text the
route answers status 400, not the claimed 500. -/
theorem C8_counterexample :
    (routePOST "" (AIOutcome.parsed rEur)).status = 400 ∧
    ¬ (routePOST "" (AIOutcome.parsed rEur)).status = 500 :=
  ⟨by decide, by decide⟩

/-- Claim C8 amended: when the extracted PDF text is empty or whitespace
the endpoint answers HTTP 400 with the no-text message, while an oracle
output that cannot be parsed (processWithAI threw) on nonblank text is
answered HTTP 500 with the generic message. -/
theorem C8_blank_and_json (textContent : String) (ai : AIOutcome) (m : String) :
    ((jsTrim textContent).length = 0 →
        routePOST textContent ai = Response.er 400 noTextMessage) ∧
    ((jsTrim textContent).length ≠ 0 →
        routePOST textContent (AIOutcome.thrown m)
          = Response.er 500 genericErrorMessage) := by
  constructor
  · intro h
    unfold routePOST
    rw [if_pos]
    show ((textContent == "") || ((jsTrim textContent).length == 0)) = true
    rw [h]
    simp
  · intro h
    have hne : (textContent == "") = false := by
      rcases he : textContent == ""
      · rfl
      · exact absurd (by rw [eq_of_beq he]; decide) h
    have hcond : ((textContent == "") || ((jsTrim textContent).length == 0)) = false := by
      rw [hne]
      simp [h]
    unfold routePOST
    rw [if_neg (by simp [hcond])]

/-- Witness for C8: the empty text is answered 400, a nonblank text whose
oracle output could not be parsed as JSON is answered 500. -/
theorem C8_witness :
    ((jsTrim "").length = 0 ∧
      routePOST "" (AIOutcome.parsed rNoCurrency) = Response.er 400 noTextMessage) ∧
    ((jsTrim "x").length ≠ 0 ∧
      routePOST "x" (AIOutcome.thrown failedJSONMessage)
        = Response.er 500 genericErrorMessage) :=
  ⟨⟨by decide,
    (C8_blank_and_json "" (AIOutcome.parsed rNoCurrency) failedJSONMessage).1 (by decide)⟩,
   ⟨by decide,
    (C8_blank_and_json "x" (AIOutcome.parsed rNoCurrency) failedJSONMessage).2 (by decide)⟩⟩

/-- Counterexample to claim C9 as stated: a negative-infinity amount is
not passed through unchanged, Math.abs turns it into positive infinity. -/
theorem C9_counterexample :
    ¬ normalizeJS [txNegInf] = [txNegInf] := by decide

/-- Claim C9 amended: normalization raises no error on a malformed amount:
a NaN amount and a positive-infinity amount pass through unchanged, while
a negative-infinity amount is replaced by positive infinity, its Math.abs
image; the other fields are preserved in every case. -/
theorem C9_special_values (t : TransactionJS) :
    (t.amount = JSNum.nan → normalizeTransactionJS t = t) ∧
    (t.amount = JSNum.posInf → normalizeTransactionJS t = t) ∧
    (t.amount = JSNum.negInf →
        normalizeTransactionJS t = { t with amount := JSNum.posInf }) := by
  obtain ⟨d, desc, a, ty, b⟩ := t
  refine ⟨?_, ?_, ?_⟩ <;> intro h
  · change a = JSNum.nan at h
    subst h
    rfl
  · change a = JSNum.posInf at h
    subst h
    rfl
  · change a = JSNum.negInf at h
    subst h
    rfl

/-- Witness for C9: the NaN transaction is fixed, the negative-infinity
transaction comes out with a positive-infinity amount. -/
theorem C9_witness :
    (txNan.amount = JSNum.nan ∧ normalizeTransactionJS txNan = txNan) ∧
    (txNegInf.amount = JSNum.negInf ∧
      normalizeTransactionJS txNegInf = { txNegInf with amount := JSNum.posInf }) :=
  ⟨⟨rfl, (C9_special_values txNan).1 rfl⟩,
   ⟨rfl, (C9_special_values txNegInf).2.2 rfl⟩⟩

/-- Counterexample to claim C10 as stated: the currency, a field that is
neither the transactions nor the reconciliation, is not always returned
unchanged: an absent currency comes back as USD. -/
theorem C10_counterexample :
    ¬ (processStatement rNoCurrency).currency = rNoCurrency.currency := by
  decide

/-- Claim C10 amended: the handler always replaces the reconciliation
field with the server-recomputed verdict, whatever verdict the oracle
reported; the account holder, document date, starting balance and ending
balance are returned unchanged, the transactions are returned normalized,
and the currency is returned unchanged unless it was absent or empty, in
which case it is USD. -/
theorem C10_frame (record : BankStatement) (oracleVerdict : Reconciliation) :
    ((processStatement { record with reconciliation := oracleVerdict }).reconciliation
        = reconcile record.startingBalance
            (normalizeTransactions record.transactions) record.endingBalance) ∧
    (processStatement record).accountHolder = record.accountHolder ∧
    (processStatement record).documentDate = record.documentDate ∧
    (processStatement record).startingBalance = record.startingBalance ∧
    (processStatement record).endingBalance = record.endingBalance ∧
    (processStatement record).transactions
      = normalizeTransactions record.transactions ∧
    (processStatement record).currency
      = (if currencyIsFalsy record.currency then some "USD" else record.currency) := by
  by_cases hf : currencyIsFalsy record.currency = true
  · simp [processStatement, applyCurrencyDefault, hf]
  · rw [Bool.not_eq_true] at hf
    simp [processStatement, applyCurrencyDefault, hf]
